import Mathlib

/-!
Shallow embedding of `salt/states/npm.py`: the three state operations
`installed`, `removed` and `bootstrap`.

The capability layer (`__salt__['npm.list']`, `__salt__['npm.install']`,
`__salt__['npm.uninstall']`) and the global dry-run flag (`__opts__['test']`)
are modelled by a `World` record: each capability's behaviour on the one
invocation an operation makes is a value of `Except NpmErr _`, where
`.error` models the capability raising `CommandNotFoundError` or
`CommandExecutionError`.  Every operation returns, besides its Python
return value, the list of capability invocations it performed (its trace),
so that claims about which capabilities are invoked and with which keyword
arguments become statements about the trace.  An operation whose own value
is `.error e` models an uncaught Python exception propagating to the
caller.
-/

set_option autoImplicit false

namespace NpmState

/-- Environment-variable assignments forwarded opaquely to the subprocess
layer (the `env` argument). -/
abbrev EnvT := List (String × String)

/-- The two exception kinds of the capability layer:
`CommandNotFoundError` and `CommandExecutionError`, each carrying the
textual detail that Python's `format` would interpolate for `{1}`. -/
inductive NpmErr where
  | notFound (detail : String)
  | execError (detail : String)
deriving DecidableEq, Repr

/-- The textual detail of an error (what `'{1}'.format(err)` renders). -/
def NpmErr.msg : NpmErr → String
  | notFound d => d
  | execError d => d

/-- A record of the listing capability: metadata for one installed
package.  Per the data model, every record carries at least a `version`
string; no other field of the metadata is read by this module. -/
structure PkgInfo where
  version : String
deriving DecidableEq, Repr

/-- Python values returned by the `npm.install` / `npm.uninstall`
capabilities, as far as this module's duck-typed checks discriminate
them: `None`, booleans, strings, lists and dicts. -/
inductive PyVal where
  | vnone
  | vbool (b : Bool)
  | vstr (s : String)
  | vlist (l : List PyVal)
  | vdict (d : List (String × PyVal))

/-- Python truthiness for the shapes in `PyVal`. -/
def pyTruthy : PyVal → Bool
  | .vnone => false
  | .vbool b => b
  | .vstr s => !s.isEmpty
  | .vlist l => !l.isEmpty
  | .vdict d => !d.isEmpty

/-- `isinstance(v, list) or isinstance(v, dict)`. -/
def isListOrDict : PyVal → Bool
  | .vlist _ => true
  | .vdict _ => true
  | _ => false

/-- `isinstance(v, str)`. -/
def isStr : PyVal → Bool
  | .vstr _ => true
  | _ => false

/-- The `result` field of a Result Record: `True`, `False` or `None`. -/
inductive RRes where
  | rtrue
  | rfalse
  | rnull
deriving DecidableEq, Repr

/-- The `changes` field: `{}`, the `{'old': ..., 'new': ...}` shape used
by `installed`, or the single-key `{name: action}` shape used by
`removed` and `bootstrap`. -/
inductive Changes where
  | empty
  | oldNew (old new : List String)
  | single (key val : String)
deriving DecidableEq, Repr

/-- The Result Record `{'name': ..., 'result': ..., 'comment': ...,
'changes': ...}` each operation builds and returns. -/
structure Ret where
  name : String
  result : RRes
  comment : String
  changes : Changes
deriving DecidableEq, Repr

/-- One field value of a Result Record, for stating its key set. -/
inductive FieldVal where
  | fname (s : String)
  | fres (r : RRes)
  | fcomment (s : String)
  | fchanges (c : Changes)

/-- A Result Record as the key/value mapping Python actually returns. -/
def retFields (r : Ret) : List (String × FieldVal) :=
  [("name", .fname r.name), ("result", .fres r.result),
   ("comment", .fcomment r.comment), ("changes", .fchanges r.changes)]

/-- Which keyword argument line 167/170 of the source puts into
`cmd_args`: `cmd_args['pkg'] = pkg_name` or `cmd_args['pkgs'] = pkgs`. -/
inductive InstallPkgArg where
  | pkgOne (p : String)
  | pkgMany (ps : List String)
deriving DecidableEq, Repr

/-- A capability invocation, recording the call site's keyword
arguments.  Distinct constructors distinguish call sites that pass
different keyword-argument sets (`removed` passes only `dir` to the
listing capability; `bootstrap` calls install with `pkg=None` and no
`registry`/`env`). -/
inductive Call where
  | npmList (dir : Option String) (runas : Option String) (env : Option EnvT)
  | npmListDirOnly (dir : Option String)
  | npmInstall (dir : Option String) (runas : Option String)
      (registry : Option String) (env : Option EnvT) (arg : InstallPkgArg)
  | npmInstallBoot (dir : Option String) (runas : Option String)
  | npmUninstall (pkg : String) (dir : Option String) (runas : Option String)
deriving DecidableEq, Repr

/-- Whether a capability invocation mutates state (`npm.install` in
either form, or `npm.uninstall`); `npm.list` is read-only. -/
def Call.isMutating : Call → Bool
  | npmInstall _ _ _ _ _ => true
  | npmInstallBoot _ _ => true
  | npmUninstall _ _ _ => true
  | _ => false

/-- The ambient world an operation runs in: the dry-run flag and the
outcome each capability would produce if invoked once by this call. -/
structure World where
  test : Bool
  listR : Except NpmErr (List (String × PkgInfo))
  installR : Except NpmErr PyVal
  uninstallR : Except NpmErr PyVal

/-- Last-binding-wins lookup, matching Python `dict` construction from a
sequence of pairs followed by `key in d` / `d[key]`. -/
def dictLookup {α : Type} (l : List (String × α)) (k : String) : Option α :=
  match l with
  | [] => none
  | p :: rest =>
    match dictLookup rest k with
    | some v => some v
    | none => if p.fst == k then some p.snd else none

/-- Python `str.lower()` (over the characters of the string). -/
def pyLower (s : String) : String := String.mk (s.data.map Char.toLower)

/-- Python `str.strip()`: drop whitespace from both ends. -/
def pyStrip (s : String) : String :=
  String.mk
    (((s.data.dropWhile Char.isWhitespace).reverse.dropWhile
        Char.isWhitespace).reverse)

/-- The characters before the first occurrence of `c`, and — when `c`
occurs — the characters after it. -/
def breakAtChar (c : Char) : List Char → List Char × Option (List Char)
  | [] => ([], none)
  | x :: xs =>
    if x = c then ([], some xs)
    else
      let r := breakAtChar c xs
      (x :: r.fst, r.snd)

/-- Line 103: `dict((p.lower(), info) for p, info in installed_pkgs.items())`. -/
def lowerKeys (l : List (String × PkgInfo)) : List (String × PkgInfo) :=
  l.map (fun p => (pyLower p.fst, p.snd))

/-- Python `repr` of a string as used by the `{0!r}` format conversions
(quoting only; the names involved contain no characters `repr` escapes). -/
def pyRepr (s : String) : String := "\x27" ++ s ++ "\x27"

/-- Line 109: `pkg.partition('@')` giving the part before the first `@`
and the part after it (empty when there is no `@`). -/
def pkgPartition (pkg : String) : String × String :=
  match breakAtChar ('@') pkg.data with
  | (pre, none) => (String.mk pre, "")
  | (pre, some post) => (String.mk pre, String.mk post)

/-- Line 110: `pkg_name.strip().lower()` applied to the part before `@`. -/
def stripName (pkg : String) : String :=
  pyLower (pyStrip (pkgPartition pkg).fst)

/-- The declared version of a spec (the part after the first `@`). -/
def pkgVer (pkg : String) : String := (pkgPartition pkg).snd

/-- Lines 112-134, decision for one spec: `True` when the loop appends
`pkg` to `pkgs_to_install`. -/
def specNeedsInstall (installed_pkgs : List (String × PkgInfo))
    (force : Bool) (pkg : String) : Bool :=
  if force then true
  else
    match dictLookup installed_pkgs (stripName pkg) with
    | none => true
    | some info =>
      if pkgVer pkg ≠ ("") then decide (info.version ≠ pkgVer pkg)
      else false

/-- The `pkgs_to_install` list the loop of lines 108-134 accumulates. -/
def pkgsToInstall (installed_pkgs : List (String × PkgInfo))
    (force : Bool) : List String → List String
  | [] => []
  | pkg :: rest =>
    if specNeedsInstall installed_pkgs force pkg
    then pkg :: pkgsToInstall installed_pkgs force rest
    else pkgsToInstall installed_pkgs force rest

/-- The `pkgs_satisfied` list the same loop accumulates: for each spec
that is present and needs no install, the entry
`'{0}@{1}'.format(pkg_name, installed_version)`. -/
def pkgsSatisfied (installed_pkgs : List (String × PkgInfo))
    (force : Bool) : List String → List String
  | [] => []
  | pkg :: rest =>
    let tail := pkgsSatisfied installed_pkgs force rest
    if force then tail
    else
      match dictLookup installed_pkgs (stripName pkg) with
      | none => tail
      | some info =>
        if pkgVer pkg ≠ ("") ∧ info.version ≠ pkgVer pkg then tail
        else (stripName pkg ++ "@" ++ info.version) :: tail

/-- The value of the loop variable `pkg_name` after the loop: the
stripped, lower-cased name of the last element (arbitrary when the list
is empty — Python would raise `NameError`, but that path is unreachable
because an empty list installs nothing). -/
def lastPkgName (lst : List String) : String :=
  lst.foldl (fun _ pkg => stripName pkg) ("")

/-- Arguments of `installed` (line 34). -/
structure InstalledArgs where
  name : String
  pkgs : Option (List String)
  dir : Option String
  user : Option String
  force_reinstall : Bool
  registry : Option String
  env : Option EnvT

/-- Lines 91-94: `pkg_list = pkgs if pkgs is not None else [name]`. -/
def pkgList (a : InstalledArgs) : List String :=
  match a.pkgs with
  | some ps => ps
  | none => [a.name]

/-- Lines 146-148 and 153-157 comment text:
`'Package(s) {0!r} satisfied by {1}'`. -/
def satisfiedComment (pkg_list sat : List String) : String :=
  "Package(s) " ++ pyRepr (String.intercalate (", ") pkg_list)
    ++ " satisfied by " ++ String.intercalate (", ") sat

/-- Lines 139-150: the dry-run comment, `'. '.join(comment_msg)`. -/
def testModeComment (pkg_list toInst sat : List String) : String :=
  String.intercalate (". ")
    ((if toInst.isEmpty then [] else
        ["NPM package(s) " ++ pyRepr (String.intercalate (", ") toInst)
          ++ " are set to be installed"]) ++
     (if sat.isEmpty then [] else [satisfiedComment pkg_list sat]))

/-- `installed` (lines 34-189).  Returns the Python return value
(`.error` would mean an uncaught exception — this function never
produces one) together with the trace of capability invocations. -/
def installed (a : InstalledArgs) (w : World) :
    Except NpmErr Ret × List Call :=
  let trace0 := [Call.npmList a.dir a.user a.env]
  match w.listR with
  | .error err =>
    (.ok ⟨a.name, .rfalse,
      "Error looking up " ++ pyRepr a.name ++ ": " ++ err.msg,
      .empty⟩, trace0)
  | .ok rawPkgs =>
    let installed_pkgs := lowerKeys rawPkgs
    let toInst := pkgsToInstall installed_pkgs a.force_reinstall (pkgList a)
    let sat := pkgsSatisfied installed_pkgs a.force_reinstall (pkgList a)
    if w.test then
      (.ok ⟨a.name, .rnull, testModeComment (pkgList a) toInst sat,
        if toInst.isEmpty then .empty else .oldNew [] toInst⟩, trace0)
    else if toInst.isEmpty then
      (.ok ⟨a.name, .rtrue, satisfiedComment (pkgList a) sat, .empty⟩, trace0)
    else
      let parg :=
        match a.pkgs with
        | some ps => InstallPkgArg.pkgMany ps
        | none => InstallPkgArg.pkgOne (lastPkgName (pkgList a))
      let trace1 := trace0 ++ [Call.npmInstall a.dir a.user a.registry a.env parg]
      match w.installR with
      | .error err =>
        (.ok ⟨a.name, .rfalse,
          "Error installing " ++ pyRepr (String.intercalate (", ") (pkgList a))
            ++ ": " ++ err.msg, .empty⟩, trace1)
      | .ok call =>
        if pyTruthy call && isListOrDict call then
          (.ok ⟨a.name, .rtrue,
            "Package(s) " ++ pyRepr (String.intercalate (", ") toInst)
              ++ " successfully installed",
            .oldNew [] toInst⟩, trace1)
        else
          (.ok ⟨a.name, .rfalse,
            "Could not install package(s) "
              ++ pyRepr (String.intercalate (", ") (pkgList a)),
            .empty⟩, trace1)

/-- Arguments of `removed` (line 192). -/
structure RemovedArgs where
  name : String
  dir : Option String
  user : Option String

/-- `removed` (lines 192-234).  The `npm.uninstall` invocation at line
226 is not inside the `try` block, so an exception it raises propagates:
that path produces `.error`. -/
def removed (a : RemovedArgs) (w : World) :
    Except NpmErr Ret × List Call :=
  let trace0 := [Call.npmListDirOnly a.dir]
  match w.listR with
  | .error err =>
    (.ok ⟨a.name, .rfalse,
      "Error uninstalling " ++ pyRepr a.name ++ ": " ++ err.msg,
      .empty⟩, trace0)
  | .ok installed_pkgs =>
    match dictLookup installed_pkgs a.name with
    | none =>
      (.ok ⟨a.name, .rtrue,
        "Package " ++ pyRepr a.name ++ " is not installed", .empty⟩, trace0)
    | some _ =>
      if w.test then
        (.ok ⟨a.name, .rnull,
          "Package " ++ pyRepr a.name ++ " is set to be removed",
          .empty⟩, trace0)
      else
        let trace1 := trace0 ++ [Call.npmUninstall a.name a.dir a.user]
        match w.uninstallR with
        | .error err => (.error err, trace1)
        | .ok v =>
          if pyTruthy v then
            (.ok ⟨a.name, .rtrue,
              "Package " ++ pyRepr a.name ++ " was successfully removed",
              .single a.name ("Removed")⟩, trace1)
          else
            (.ok ⟨a.name, .rfalse,
              "Error removing package " ++ pyRepr a.name, .empty⟩, trace1)

/-- `bootstrap` (lines 237-272).  Note there is no dry-run check: the
install capability is invoked unconditionally. -/
def bootstrap (nm : String) (user : Option String) (w : World) :
    Except NpmErr Ret × List Call :=
  let trace0 := [Call.npmInstallBoot (some nm) user]
  match w.installR with
  | .error err =>
    (.ok ⟨nm, .rfalse,
      "Error Bootstrapping " ++ pyRepr nm ++ ": " ++ err.msg,
      .empty⟩, trace0)
  | .ok call =>
    if !pyTruthy call then
      (.ok ⟨nm, .rtrue, "Directory is already bootstrapped", .empty⟩, trace0)
    else if isStr call then
      (.ok ⟨nm, .rfalse, "Could not bootstrap directory", .empty⟩, trace0)
    else
      (.ok ⟨nm, .rtrue, "Directory was successfully bootstrapped",
        .single nm ("Bootstrapped")⟩, trace0)

/-- Spec-side predicate for C2: the spec's (lower-cased) name is a key
of the (lower-cased) installed records, and it either declares no
version or declares exactly the recorded installed version. -/
def specSatisfiedB (installed_pkgs : List (String × PkgInfo))
    (pkg : String) : Bool :=
  match dictLookup installed_pkgs (stripName pkg) with
  | none => false
  | some info => pkgVer pkg == ("") || info.version == pkgVer pkg

/-- Spec-side predicate for C6: the capability's return value is a
non-empty list or a non-empty mapping. -/
def nonEmptyListOrDict : PyVal → Bool
  | .vlist (_ :: _) => true
  | .vdict (_ :: _) => true
  | _ => false

/-! Concrete inputs used by witnesses and counterexamples. -/

/-- The single-spec arguments of the spec's scenarios:
`installed("coffee-script@1.0.1")` with everything else defaulted. -/
def aCoffee : InstalledArgs :=
  ⟨"coffee-script@1.0.1", none, none, none, false, none, none⟩

/-- `removed("coffee-script")` with everything else defaulted. -/
def raCoffee : RemovedArgs := ⟨"coffee-script", none, none⟩

/-- Records with `coffee-script` installed at `1.0.1`. -/
def recsExact : List (String × PkgInfo) := [("coffee-script", ⟨"1.0.1"⟩)]

/-- Records with `coffee-script` installed at `1.0.0`. -/
def recsOld : List (String × PkgInfo) := [("coffee-script", ⟨"1.0.0"⟩)]

/-- Records keyed by the differently-cased `Coffee-Script`. -/
def recsCase : List (String × PkgInfo) := [("Coffee-Script", ⟨"1.0.1"⟩)]

/-- Non-dry-run world whose listing reports `coffee-script@1.0.1`. -/
def wSat : World := ⟨false, .ok recsExact, .ok PyVal.vnone, .ok PyVal.vnone⟩

/-- Non-dry-run world with `coffee-script@1.0.0` installed and a given
install-capability outcome. -/
def wOld (v : PyVal) : World := ⟨false, .ok recsOld, .ok v, .ok PyVal.vnone⟩

/-- Dry-run world: the test flag is set, `coffee-script@1.0.0` is
installed, and the install capability would report a structured result. -/
def wDryRun : World :=
  ⟨true, .ok recsOld, .ok (PyVal.vdict [("npm", PyVal.vnone)]), .ok PyVal.vnone⟩

/-- World whose listing and install capabilities both raise
`CommandNotFoundError`. -/
def wErrList : World :=
  ⟨false, .error (NpmErr.notFound ("npm: command not found")),
   .error (NpmErr.notFound ("npm: command not found")), .ok PyVal.vnone⟩

/-- World where the uninstall capability raises `CommandExecutionError`. -/
def wUninstallBoom : World :=
  ⟨false, .ok recsExact, .ok PyVal.vnone, .error (NpmErr.execError ("npm failed"))⟩

/-- World with an empty listing. -/
def wEmpty : World := ⟨false, .ok [], .ok PyVal.vnone, .ok PyVal.vnone⟩

/-- World listing only the differently-cased `Coffee-Script`. -/
def wCase : World := ⟨false, .ok recsCase, .ok PyVal.vnone, .ok PyVal.vnone⟩

/-- World where the install capability returns an unparseable string. -/
def wStr : World :=
  ⟨false, .ok [], .ok (PyVal.vstr ("unparseable output")), .ok PyVal.vnone⟩

/-! Helper lemmas shared by several claims. -/

/-- A spec satisfied in the claim's sense is not marked for install
(`force_reinstall` off). -/
theorem specNeedsInstall_eq_false_of_satisfied
    (installed_pkgs : List (String × PkgInfo)) (pkg : String)
    (h : specSatisfiedB installed_pkgs pkg = true) :
    specNeedsInstall installed_pkgs false pkg = false := by
  unfold specSatisfiedB at h
  unfold specNeedsInstall
  cases hl : dictLookup installed_pkgs (stripName pkg) with
  | none => rw [hl] at h; exact absurd h (by simp)
  | some info =>
    rw [hl] at h
    simp only [Bool.or_eq_true, beq_iff_eq] at h
    simp only [if_neg (Bool.false_ne_true), hl]
    rcases h with h | h
    · rw [if_neg]
      simp [h]
    · by_cases hv : pkgVer pkg = ("")
      · simp [hv]
      · simp [hv, h]

/-- When every spec of the working list is satisfied, the loop marks
nothing for installation. -/
theorem pkgsToInstall_eq_nil (installed_pkgs : List (String × PkgInfo))
    (lst : List String)
    (h : ∀ pkg ∈ lst, specSatisfiedB installed_pkgs pkg = true) :
    pkgsToInstall installed_pkgs false lst = [] := by
  induction lst with
  | nil => rfl
  | cons p rest ih =>
    have hp := specNeedsInstall_eq_false_of_satisfied installed_pkgs p
      (h p (List.mem_cons_self p rest))
    unfold pkgsToInstall
    rw [hp]
    exact ih (fun q hq => h q (List.mem_cons_of_mem p hq))

/-- The source's duck-typed success test (line 179) coincides with the
spec's "non-empty list or mapping". -/
theorem truthy_listOrDict_eq_nonEmpty (v : PyVal) :
    (pyTruthy v && isListOrDict v) = nonEmptyListOrDict v := by
  cases v with
  | vnone => rfl
  | vbool b => cases b <;> rfl
  | vstr s => simp [pyTruthy, isListOrDict, nonEmptyListOrDict]
  | vlist l => cases l <;> rfl
  | vdict d => cases d <;> rfl

/-- Claim C1, counterexample: `bootstrap` contains no dry-run check, so
with the test flag set it still invokes the mutating install capability,
performs the bootstrap, and reports `result=True` (not `None`) together
with a non-empty `changes` mapping. -/
theorem C1_counterexample :
    (bootstrap ("/proj") none wDryRun).snd.any Call.isMutating = true
    ∧ (bootstrap ("/proj") none wDryRun).fst =
        .ok ⟨"/proj", .rtrue, "Directory was successfully bootstrapped",
          Changes.single ("/proj") ("Bootstrapped")⟩ :=
  ⟨rfl, rfl⟩

/-- Claim C1, amended: for `installed` and `removed`, while the dry-run
flag is set no mutating capability is invoked, `installed` reports
`result=None` whenever its record shows a pending change, and `removed`
reports `result=None` whenever the package is present (the case in which
a change would occur); `bootstrap` ignores the dry-run flag entirely. -/
theorem C1_dry_run_no_mutation (a : InstalledArgs) (ra : RemovedArgs)
    (w : World) (h : w.test = true) :
    ((installed a w).snd.any Call.isMutating = false)
    ∧ (∀ r, (installed a w).fst = .ok r →
        r.changes ≠ Changes.empty → r.result = .rnull)
    ∧ ((removed ra w).snd.any Call.isMutating = false)
    ∧ (∀ recs info, w.listR = .ok recs →
        dictLookup recs ra.name = some info →
        (removed ra w).fst = .ok ⟨ra.name, .rnull,
          "Package " ++ pyRepr ra.name ++ " is set to be removed",
          Changes.empty⟩) := by
  refine ⟨?_, ?_, ?_, ?_⟩
  · unfold installed
    cases w.listR with
    | error err => rfl
    | ok recs => simp [h, Call.isMutating]
  · unfold installed
    cases w.listR with
    | error err =>
      intro r hr hc
      rw [Except.ok.injEq] at hr
      exact absurd (congrArg Ret.changes hr.symm) hc
    | ok recs =>
      simp only [h, if_true]
      intro r hr hc
      rw [Except.ok.injEq] at hr
      exact congrArg Ret.result hr.symm
  · unfold removed
    cases w.listR with
    | error err => rfl
    | ok recs =>
      cases hd : dictLookup recs ra.name with
      | none => simp [hd, Call.isMutating]
      | some info => simp [hd, h, Call.isMutating]
  · intro recs info hl hs
    unfold removed
    rw [hl]
    simp [hs, h]

/-- Claim C1, witness of the amended theorem at a concrete dry-run
world: neither `installed` nor `removed` invokes a mutating capability. -/
theorem C1_dry_run_witness :
    wDryRun.test = true
    ∧ (installed aCoffee wDryRun).snd.any Call.isMutating = false
    ∧ (removed raCoffee wDryRun).snd.any Call.isMutating = false :=
  ⟨rfl, (C1_dry_run_no_mutation aCoffee raCoffee wDryRun rfl).1,
    (C1_dry_run_no_mutation aCoffee raCoffee wDryRun rfl).2.2.1⟩

/-- Claim C2: if every spec of the working list is satisfied (its
lower-cased name is recorded, with no declared version or exactly the
recorded one), `force_reinstall` is off and dry-run is off, then
`installed` returns `result=True` with empty changes and a satisfaction
comment, and the trace contains only the listing call — the install
capability is never invoked. -/
theorem C2_installed_already_satisfied (a : InstalledArgs) (w : World)
    (recs : List (String × PkgInfo))
    (hl : w.listR = .ok recs) (ht : w.test = false)
    (hf : a.force_reinstall = false)
    (hs : ∀ pkg ∈ pkgList a, specSatisfiedB (lowerKeys recs) pkg = true) :
    (installed a w).fst = .ok ⟨a.name, .rtrue,
        satisfiedComment (pkgList a)
          (pkgsSatisfied (lowerKeys recs) false (pkgList a)),
        Changes.empty⟩
    ∧ (installed a w).snd = [Call.npmList a.dir a.user a.env] := by
  have h0 := pkgsToInstall_eq_nil (lowerKeys recs) (pkgList a) hs
  unfold installed
  rw [hl]
  simp [ht, hf, h0]

/-- Claim C2, witness: the spec's scenario — `coffee-script@1.0.1`
declared, `coffee-script` recorded at `1.0.1` — yields `result=True`,
empty changes, the satisfaction comment, and no install invocation. -/
theorem C2_witness :
    (∀ pkg ∈ pkgList aCoffee, specSatisfiedB (lowerKeys recsExact) pkg = true)
    ∧ (installed aCoffee wSat).fst = .ok ⟨"coffee-script@1.0.1", .rtrue,
        "Package(s) \x27coffee-script@1.0.1\x27 satisfied by coffee-script@1.0.1",
        Changes.empty⟩
    ∧ (installed aCoffee wSat).snd = [Call.npmList none none none] := by
  have h := C2_installed_already_satisfied aCoffee wSat recsExact rfl rfl rfl
    (by decide)
  exact ⟨by decide, h.1, h.2⟩

/-- Claim C3, counterexample: in the spec's scenario (declared
`coffee-script@1.0.1`, installed `1.0.0`), the install capability is
invoked with `pkg="coffee-script"` — the lower-cased, version-stripped
loop variable — not with `pkg="coffee-script@1.0.1"` as claimed. -/
theorem C3_counterexample :
    (installed aCoffee (wOld (PyVal.vdict [("coffee-script", PyVal.vnone)]))).snd
      = [Call.npmList none none none,
         Call.npmInstall none none none none
           (InstallPkgArg.pkgOne ("coffee-script"))]
    ∧ InstallPkgArg.pkgOne ("coffee-script")
        ≠ InstallPkgArg.pkgOne ("coffee-script@1.0.1") :=
  ⟨rfl, by decide⟩

/-- Claim C3, amended: in the scenario the install capability is
invoked with `pkg="coffee-script"` (the version-stripped, lower-cased
name), and whenever that capability returns a non-empty mapping the
operation returns `result=True` with
`changes={old: [], new: ["coffee-script@1.0.1"]}`. -/
theorem C3_amended_scenario (x : String × PyVal) (rest : List (String × PyVal)) :
    (installed aCoffee (wOld (PyVal.vdict (x :: rest)))).snd
      = [Call.npmList none none none,
         Call.npmInstall none none none none
           (InstallPkgArg.pkgOne ("coffee-script"))]
    ∧ (installed aCoffee (wOld (PyVal.vdict (x :: rest)))).fst
      = .ok ⟨"coffee-script@1.0.1", .rtrue,
          "Package(s) \x27coffee-script@1.0.1\x27 successfully installed",
          Changes.oldNew [] ["coffee-script@1.0.1"]⟩ :=
  ⟨rfl, rfl⟩

/-- Claim C4: when `pkgs` is not given and the single-`pkg` install
path is taken, the `pkg` keyword passed to the install capability is
the loop variable after the last iteration — the lower-cased,
whitespace-stripped name before the first `@` — not the `name` argument
itself. -/
theorem C4_single_pkg_uses_loop_variable (a : InstalledArgs) (w : World)
    (d u r : Option String) (e : Option EnvT) (arg : InstallPkgArg)
    (hp : a.pkgs = none)
    (hc : Call.npmInstall d u r e arg ∈ (installed a w).snd) :
    arg = InstallPkgArg.pkgOne (stripName a.name) := by
  unfold installed at hc
  cases hw : w.listR with
  | error err => rw [hw] at hc; simp at hc
  | ok recs =>
    rw [hw] at hc
    by_cases ht : w.test = true
    · simp [ht] at hc
    · simp only [ht, if_false, Bool.false_eq_true] at hc
      by_cases hi :
          (pkgsToInstall (lowerKeys recs) a.force_reinstall (pkgList a)).isEmpty
      · simp [hi] at hc
      · simp only [hi, if_false, Bool.false_eq_true] at hc
        rw [hp] at hc
        simp only [pkgList, hp, lastPkgName, List.foldl] at hc
        cases hv : w.installR with
        | error err =>
          rw [hv] at hc
          simp at hc
          exact hc.2.2.2.2
        | ok v =>
          rw [hv] at hc
          by_cases hs : (pyTruthy v && isListOrDict v) = true
          · simp [hs] at hc
            exact hc.2.2.2.2
          · simp [hs] at hc
            exact hc.2.2.2.2

/-- Claim C4, witness: with `name="coffee-script@1.0.1"`, no `pkgs`,
and an install needed, the `pkg` argument recorded in the trace is the
stripped name `"coffee-script"`. -/
theorem C4_witness :
    (Call.npmInstall none none none none (InstallPkgArg.pkgOne ("coffee-script"))
        ∈ (installed aCoffee (wOld PyVal.vnone)).snd)
    ∧ InstallPkgArg.pkgOne ("coffee-script")
        = InstallPkgArg.pkgOne (stripName aCoffee.name) :=
  ⟨by decide,
    C4_single_pkg_uses_loop_variable aCoffee (wOld PyVal.vnone)
      none none none none (InstallPkgArg.pkgOne ("coffee-script"))
      rfl (by decide)⟩

/-- Claim C5, counterexample: the `npm.uninstall` invocation in
`removed` (line 226) is outside the `try` block, so when the package is
present, dry-run is off and the uninstall capability raises
`CommandExecutionError`, the fault propagates to the caller instead of
becoming a `result=False` record. -/
theorem C5_counterexample :
    (removed raCoffee wUninstallBoom).fst
      = .error (NpmErr.execError ("npm failed")) := rfl

/-- Claim C5, amended: both failure kinds are caught at every listing
and install call site — `installed` and `bootstrap` never propagate a
fault, and each such failure yields a `result=False` record whose
comment embeds the error's textual detail — but the uninstall call site
in `removed` is not protected. -/
theorem C5_error_handling (a : InstalledArgs) (ra : RemovedArgs)
    (nm : String) (us : Option String) (w : World) (e : NpmErr) :
    (∃ r, (installed a w).fst = Except.ok r)
    ∧ (∃ r, (bootstrap nm us w).fst = Except.ok r)
    ∧ (w.listR = .error e →
        (installed a w).fst = .ok ⟨a.name, .rfalse,
            "Error looking up " ++ pyRepr a.name ++ ": " ++ e.msg,
            Changes.empty⟩
        ∧ (removed ra w).fst = .ok ⟨ra.name, .rfalse,
            "Error uninstalling " ++ pyRepr ra.name ++ ": " ++ e.msg,
            Changes.empty⟩)
    ∧ (w.installR = .error e →
        (bootstrap nm us w).fst = .ok ⟨nm, .rfalse,
          "Error Bootstrapping " ++ pyRepr nm ++ ": " ++ e.msg,
          Changes.empty⟩)
    ∧ (∀ recs, w.listR = .ok recs → w.test = false → w.installR = .error e →
        pkgsToInstall (lowerKeys recs) a.force_reinstall (pkgList a) ≠ [] →
        (installed a w).fst = .ok ⟨a.name, .rfalse,
          "Error installing "
            ++ pyRepr (String.intercalate (", ") (pkgList a))
            ++ ": " ++ e.msg, Changes.empty⟩) := by
  refine ⟨?_, ?_, ?_, ?_, ?_⟩
  · unfold installed
    cases w.listR with
    | error err => exact ⟨_, rfl⟩
    | ok recs =>
      by_cases ht : w.test = true
      · simp [ht]
      · simp only [ht, if_false, Bool.false_eq_true]
        by_cases hi :
            (pkgsToInstall (lowerKeys recs) a.force_reinstall (pkgList a)).isEmpty
        · simp [hi]
        · simp only [hi, if_false, Bool.false_eq_true]
          cases w.installR with
          | error err => exact ⟨_, rfl⟩
          | ok v =>
            by_cases hs : (pyTruthy v && isListOrDict v) = true
            · simp [hs]
            · simp [hs]
  · unfold bootstrap
    cases w.installR with
    | error err => exact ⟨_, rfl⟩
    | ok v =>
      by_cases hv : pyTruthy v = true
      · by_cases hs : isStr v = true
        · simp [hv, hs]
        · simp [hv, hs]
      · simp [hv]
  · intro hl
    constructor
    · unfold installed; rw [hl]
    · unfold removed; rw [hl]
  · intro hi
    unfold bootstrap; rw [hi]
  · intro recs hl ht hi hne
    unfold installed
    rw [hl]
    have hne' :
        (pkgsToInstall (lowerKeys recs) a.force_reinstall (pkgList a)).isEmpty
          = false := by
      cases hp : pkgsToInstall (lowerKeys recs) a.force_reinstall (pkgList a)
      · exact absurd hp hne
      · rfl
    simp only [ht, hne', if_false, Bool.false_eq_true]
    rw [hi]

/-- Claim C5, witness of the amended theorem: with a listing capability
raising `CommandNotFoundError`, `installed` and `removed` both return
`result=False` records embedding the error text. -/
theorem C5_witness :
    wErrList.listR = Except.error (NpmErr.notFound ("npm: command not found"))
    ∧ (installed aCoffee wErrList).fst = .ok ⟨"coffee-script@1.0.1", .rfalse,
        "Error looking up \x27coffee-script@1.0.1\x27: npm: command not found",
        Changes.empty⟩
    ∧ (removed raCoffee wErrList).fst = .ok ⟨"coffee-script", .rfalse,
        "Error uninstalling \x27coffee-script\x27: npm: command not found",
        Changes.empty⟩
    ∧ (bootstrap ("/proj") none wErrList).fst = .ok ⟨"/proj", .rfalse,
        "Error Bootstrapping \x27/proj\x27: npm: command not found",
        Changes.empty⟩ :=
  ⟨rfl,
    ((C5_error_handling aCoffee raCoffee ("/proj") none wErrList
        (NpmErr.notFound ("npm: command not found"))).2.2.1 rfl).1,
    ((C5_error_handling aCoffee raCoffee ("/proj") none wErrList
        (NpmErr.notFound ("npm: command not found"))).2.2.1 rfl).2,
    (C5_error_handling aCoffee raCoffee ("/proj") none wErrList
        (NpmErr.notFound ("npm: command not found"))).2.2.2.1 rfl⟩

/-- Claim C6: once the install capability returns without raising, the
operation reports `result=True` exactly when the returned value is a
non-empty list or mapping (then `changes={old: [], new: to-install}`
and a success comment); any other shape yields `result=False` with the
"could not install" comment and empty changes. -/
theorem C6_install_success_shape (a : InstalledArgs) (w : World)
    (recs : List (String × PkgInfo)) (v : PyVal)
    (hl : w.listR = .ok recs) (ht : w.test = false) (hi : w.installR = .ok v)
    (hne : pkgsToInstall (lowerKeys recs) a.force_reinstall (pkgList a) ≠ []) :
    ∃ r, (installed a w).fst = Except.ok r
      ∧ (r.result = .rtrue ↔ nonEmptyListOrDict v = true)
      ∧ (nonEmptyListOrDict v = true →
          r.changes = Changes.oldNew []
              (pkgsToInstall (lowerKeys recs) a.force_reinstall (pkgList a))
          ∧ r.comment = "Package(s) "
              ++ pyRepr (String.intercalate (", ")
                  (pkgsToInstall (lowerKeys recs) a.force_reinstall (pkgList a)))
              ++ " successfully installed")
      ∧ (nonEmptyListOrDict v = false →
          r.result = .rfalse
          ∧ r.comment = "Could not install package(s) "
              ++ pyRepr (String.intercalate (", ") (pkgList a))
          ∧ r.changes = Changes.empty) := by
  have hne' :
      (pkgsToInstall (lowerKeys recs) a.force_reinstall (pkgList a)).isEmpty
        = false := by
    cases hp : pkgsToInstall (lowerKeys recs) a.force_reinstall (pkgList a)
    · exact absurd hp hne
    · rfl
  unfold installed
  rw [hl]
  simp only [ht, hne', if_false, Bool.false_eq_true]
  rw [hi]
  cases hsh : nonEmptyListOrDict v with
  | true =>
    have hc : (pyTruthy v && isListOrDict v) = true := by
      rw [truthy_listOrDict_eq_nonEmpty]; exact hsh
    simp only [hc, if_true]
    exact ⟨_, rfl, by simp, fun _ => ⟨rfl, rfl⟩, by simp [hsh]⟩
  | false =>
    have hc : (pyTruthy v && isListOrDict v) = false := by
      rw [truthy_listOrDict_eq_nonEmpty]; exact hsh
    simp only [hc, Bool.false_eq_true, if_false]
    exact ⟨_, rfl, by simp [hsh], by simp [hsh], fun _ => ⟨rfl, rfl, rfl⟩⟩

/-- Claim C6, witness: in the version-mismatch scenario with the
capability returning the string `"npm ERR!"` (truthy but neither list
nor mapping), the operation reports `result=False` with the "could not
install" comment. -/
theorem C6_witness :
    pkgsToInstall (lowerKeys recsOld) false (pkgList aCoffee)
        = ["coffee-script@1.0.1"]
    ∧ ∃ r, (installed aCoffee (wOld (PyVal.vstr ("npm ERR!")))).fst
          = Except.ok r
        ∧ (r.result = .rtrue ↔
            nonEmptyListOrDict (PyVal.vstr ("npm ERR!")) = true)
        ∧ (nonEmptyListOrDict (PyVal.vstr ("npm ERR!")) = false →
            r.result = .rfalse
            ∧ r.comment = "Could not install package(s) "
                ++ pyRepr (String.intercalate (", ") (pkgList aCoffee))
            ∧ r.changes = Changes.empty) := by
  refine ⟨by decide, ?_⟩
  rcases C6_install_success_shape aCoffee (wOld (PyVal.vstr ("npm ERR!")))
      recsOld (PyVal.vstr ("npm ERR!")) rfl rfl rfl (by decide) with
    ⟨r, h1, h2, _, h4⟩
  exact ⟨r, h1, h2, h4⟩

/-- Claim C7: `removed` queries the listing capability passing only
`dir` (the trace records a dir-only listing call, forwarding neither
`user` nor `env`), and decides presence by the exact, non-lower-cased
`name` as a key of the returned records: an exactly-absent name yields
the "not installed" success record, and an exactly-present name (with
dry-run off) leads to the uninstall invocation. -/
theorem C7_removed_exact_name_dir_only (a : RemovedArgs) (w : World) :
    ((removed a w).snd.head? = some (Call.npmListDirOnly a.dir))
    ∧ (∀ recs, w.listR = .ok recs →
        (dictLookup recs a.name = none →
          (removed a w).fst = .ok ⟨a.name, .rtrue,
            "Package " ++ pyRepr a.name ++ " is not installed",
            Changes.empty⟩)
        ∧ (∀ info, dictLookup recs a.name = some info → w.test = false →
            Call.npmUninstall a.name a.dir a.user ∈ (removed a w).snd)) := by
  constructor
  · unfold removed
    cases w.listR with
    | error err => rfl
    | ok recs =>
      cases hd : dictLookup recs a.name with
      | none => simp [hd]
      | some info =>
        by_cases ht : w.test = true
        · simp [hd, ht]
        · cases hv : w.uninstallR with
          | error err => simp [hd, ht, hv]
          | ok v =>
            by_cases hs : pyTruthy v = true
            · simp [hd, ht, hv, hs]
            · simp [hd, ht, hv, hs]
  · intro recs hl
    constructor
    · intro hd
      unfold removed
      rw [hl]
      simp [hd]
    · intro info hd ht
      unfold removed
      rw [hl]
      cases hv : w.uninstallR with
      | error err => simp [hd, ht, hv]
      | ok v =>
        by_cases hs : pyTruthy v = true
        · simp [hd, ht, hv, hs]
        · simp [hd, ht, hv, hs]

/-- Claim C7, witness: with the listing keyed by the differently-cased
`Coffee-Script`, `removed("coffee-script")` finds no exact key and
reports "not installed" — demonstrating the exact-string (non
lower-cased) comparison — after a listing call passing only `dir`. -/
theorem C7_witness :
    dictLookup recsCase ("coffee-script") = none
    ∧ (removed raCoffee wCase).snd.head? = some (Call.npmListDirOnly none)
    ∧ (removed raCoffee wCase).fst = .ok ⟨"coffee-script", .rtrue,
        "Package \x27coffee-script\x27 is not installed", Changes.empty⟩ :=
  ⟨rfl, (C7_removed_exact_name_dir_only raCoffee wCase).1,
    ((C7_removed_exact_name_dir_only raCoffee wCase).2 recsCase rfl).1 rfl⟩

/-- Claim C8: for any `name` absent (as an exact key) from the records
the listing capability returns, `removed` reports `result=True` with
the "not installed" comment and empty changes, and its trace is only
the listing call — the uninstall capability is never invoked. -/
theorem C8_removed_absent (a : RemovedArgs) (w : World)
    (recs : List (String × PkgInfo)) (hl : w.listR = .ok recs)
    (hn : dictLookup recs a.name = none) :
    (removed a w).fst = .ok ⟨a.name, .rtrue,
        "Package " ++ pyRepr a.name ++ " is not installed", Changes.empty⟩
    ∧ (removed a w).snd = [Call.npmListDirOnly a.dir] := by
  unfold removed
  rw [hl]
  simp [hn]

/-- Claim C8, witness: the spec's scenario — `removed("coffee-script")`
with an empty listing — returns the "not installed" success record and
performs no uninstall call. -/
theorem C8_witness :
    dictLookup ([] : List (String × PkgInfo)) ("coffee-script") = none
    ∧ (removed raCoffee wEmpty).fst = .ok ⟨"coffee-script", .rtrue,
        "Package \x27coffee-script\x27 is not installed", Changes.empty⟩
    ∧ (removed raCoffee wEmpty).snd = [Call.npmListDirOnly none] :=
  ⟨rfl, (C8_removed_absent raCoffee wEmpty [] rfl rfl).1,
    (C8_removed_absent raCoffee wEmpty [] rfl rfl).2⟩

/-- Claim C9: once `bootstrap`'s install capability returns without
raising, a falsy value yields `result=True` with "already bootstrapped"
and empty changes; otherwise a string yields `result=False` with "could
not bootstrap"; any other truthy value yields `result=True` with
`changes={name: "Bootstrapped"}`. -/
theorem C9_bootstrap_outcomes (nm : String) (us : Option String)
    (w : World) (v : PyVal) (h : w.installR = .ok v) :
    (pyTruthy v = false → (bootstrap nm us w).fst
        = .ok ⟨nm, .rtrue, "Directory is already bootstrapped",
            Changes.empty⟩)
    ∧ (pyTruthy v = true → isStr v = true → (bootstrap nm us w).fst
        = .ok ⟨nm, .rfalse, "Could not bootstrap directory",
            Changes.empty⟩)
    ∧ (pyTruthy v = true → isStr v = false → (bootstrap nm us w).fst
        = .ok ⟨nm, .rtrue, "Directory was successfully bootstrapped",
            Changes.single nm ("Bootstrapped")⟩) := by
  unfold bootstrap
  rw [h]
  refine ⟨?_, ?_, ?_⟩
  · intro hv; simp [hv]
  · intro hv hs; simp [hv, hs]
  · intro hv hs; simp [hv, hs]

/-- Claim C9, witness: the spec's scenario — the capability returns the
string `"unparseable output"` — yields `result=False` with the "could
not bootstrap" comment. -/
theorem C9_witness :
    wStr.installR = Except.ok (PyVal.vstr ("unparseable output"))
    ∧ pyTruthy (PyVal.vstr ("unparseable output")) = true
    ∧ isStr (PyVal.vstr ("unparseable output")) = true
    ∧ (bootstrap ("/proj") none wStr).fst
        = .ok ⟨"/proj", .rfalse, "Could not bootstrap directory",
            Changes.empty⟩ :=
  ⟨rfl, rfl, rfl,
    (C9_bootstrap_outcomes ("/proj") none wStr
        (PyVal.vstr ("unparseable output")) rfl).2.1 rfl rfl⟩

/-- Every `result` field is one of the three Python values
`True`/`False`/`None` the `RRes` type embeds. -/
theorem RRes.trichotomy (x : RRes) :
    x = RRes.rtrue ∨ x = RRes.rfalse ∨ x = RRes.rnull := by
  cases x
  · exact Or.inl rfl
  · exact Or.inr (Or.inl rfl)
  · exact Or.inr (Or.inr rfl)

/-- Claim C10: on every path on which an operation returns a value,
that value is a mapping with exactly the keys `name`, `result`,
`comment`, `changes` in the source's construction order, its `name`
field equals the `name` argument of the call, and its `result` field is
`True`, `False` or `None`. -/
theorem C10_result_record_shape (a : InstalledArgs) (ra : RemovedArgs)
    (nm : String) (us : Option String) (w : World) :
    (∀ r, (installed a w).fst = Except.ok r →
        r.name = a.name
        ∧ (retFields r).map Prod.fst = ["name", "result", "comment", "changes"]
        ∧ (r.result = .rtrue ∨ r.result = .rfalse ∨ r.result = .rnull))
    ∧ (∀ r, (removed ra w).fst = Except.ok r →
        r.name = ra.name
        ∧ (retFields r).map Prod.fst = ["name", "result", "comment", "changes"]
        ∧ (r.result = .rtrue ∨ r.result = .rfalse ∨ r.result = .rnull))
    ∧ (∀ r, (bootstrap nm us w).fst = Except.ok r →
        nm = r.name
        ∧ (retFields r).map Prod.fst = ["name", "result", "comment", "changes"]
        ∧ (r.result = .rtrue ∨ r.result = .rfalse ∨ r.result = .rnull)) := by
  refine ⟨?_, ?_, ?_⟩
  · intro r hr
    refine ⟨?_, rfl, RRes.trichotomy r.result⟩
    unfold installed at hr
    cases hw : w.listR with
    | error err =>
      rw [hw] at hr
      simp only [] at hr
      injection hr with h
      rw [← h]
    | ok recs =>
      rw [hw] at hr
      by_cases ht : w.test = true
      · simp only [ht, if_true] at hr
        injection hr with h
        rw [← h]
      · simp only [ht, if_false, Bool.false_eq_true] at hr
        by_cases hi :
            (pkgsToInstall (lowerKeys recs) a.force_reinstall (pkgList a)).isEmpty
        · simp only [hi, if_true] at hr
          injection hr with h
          rw [← h]
        · simp only [hi, if_false, Bool.false_eq_true] at hr
          cases hv : w.installR with
          | error err =>
            rw [hv] at hr
            simp only [] at hr
            injection hr with h
            rw [← h]
          | ok v =>
            rw [hv] at hr
            by_cases hs : (pyTruthy v && isListOrDict v) = true
            · simp only [hs, if_true] at hr
              injection hr with h
              rw [← h]
            · simp only [hs, if_false, Bool.false_eq_true] at hr
              injection hr with h
              rw [← h]
  · intro r hr
    refine ⟨?_, rfl, RRes.trichotomy r.result⟩
    unfold removed at hr
    cases hw : w.listR with
    | error err =>
      rw [hw] at hr
      simp only [] at hr
      injection hr with h
      rw [← h]
    | ok recs =>
      rw [hw] at hr
      cases hd : dictLookup recs ra.name with
      | none =>
        simp only [hd] at hr
        injection hr with h
        rw [← h]
      | some info =>
        simp only [hd] at hr
        by_cases ht : w.test = true
        · simp only [ht, if_true] at hr
          injection hr with h
          rw [← h]
        · simp only [ht, if_false, Bool.false_eq_true] at hr
          cases hv : w.uninstallR with
          | error err =>
            rw [hv] at hr
            simp only [] at hr
            exact Except.noConfusion hr
          | ok v =>
            rw [hv] at hr
            by_cases hs : pyTruthy v = true
            · simp only [hs, if_true] at hr
              injection hr with h
              rw [← h]
            · simp only [hs, if_false, Bool.false_eq_true] at hr
              injection hr with h
              rw [← h]
  · intro r hr
    refine ⟨?_, rfl, RRes.trichotomy r.result⟩
    unfold bootstrap at hr
    cases hv : w.installR with
    | error err =>
      rw [hv] at hr
      simp only [] at hr
      injection hr with h
      rw [← h]
    | ok v =>
      rw [hv] at hr
      by_cases hp : pyTruthy v = true
      · by_cases hs : isStr v = true
        · simp only [hp, hs, Bool.not_true, Bool.false_eq_true, if_false,
            if_true] at hr
          injection hr with h
          rw [← h]
        · simp only [hp, hs, Bool.not_true, Bool.false_eq_true, if_false] at hr
          injection hr with h
          rw [← h]
      · simp only [Bool.eq_false_iff] at hp
        simp only [Bool.not_eq_true] at hp
        simp only [hp, Bool.not_false, if_true] at hr
        injection hr with h
        rw [← h]

/-- Claim C10, witness: concrete runs of the three operations return
records whose `name` equals the respective `name` argument. -/
theorem C10_witness :
    (∀ r, (installed aCoffee wSat).fst = Except.ok r →
        r.name = aCoffee.name
        ∧ (retFields r).map Prod.fst = ["name", "result", "comment", "changes"]
        ∧ (r.result = .rtrue ∨ r.result = .rfalse ∨ r.result = .rnull))
    ∧ (removed raCoffee wEmpty).fst
        = Except.ok ⟨"coffee-script", .rtrue,
            "Package \x27coffee-script\x27 is not installed", Changes.empty⟩ :=
  ⟨(C10_result_record_shape aCoffee raCoffee ("/proj") none wSat).1, rfl⟩

end NpmState
